import Mathlib

/-!
# Verification of the TickTick MCP server core (`src/ticktick-client.ts`)

This file gives a shallow embedding of the decision logic of the
TickTick client: the date classifiers (`isTaskDueToday`, `isTaskOverdue`),
the display normalizer (`enhanceTaskForDisplay`), the session manager
(`ensureAuthenticated` / `authenticate`), the aggregate task fetch
(`getTasksRaw` / `getTasks`) and the error-message construction of the
gateway operations, together with theorems settling the specification
claims about them.

Modelling conventions:
* JavaScript instants (`Date` values) are milliseconds since the Unix
  epoch, carried as `Int`.  The UTC calendar date produced by
  `toISOString().split('T')[0]` is modelled by the UTC day number
  `utcDay` (floor division by 86 400 000 ms); equality / lexicographic
  order of the `YYYY-MM-DD` strings coincides with equality / order of
  the day numbers on the standard four-digit-year range of instants.
* The due-date field is a string in the source and is parsed with
  `new Date(...)` inside the classifiers.  The embedding carries the
  parse outcome: `none` means the field is absent or empty (falsy),
  `some none` means a present but unparseable string (the subsequent
  `toISOString` throws and the `catch` returns `false`), and
  `some (some ms)` means the string parses to the instant `ms`.
* JavaScript truthiness of an optional string (`completedTime`,
  `accessToken`, `username`, `password`, the session id, the token
  field of the sign-on response) is `strTruthy`: present and non-empty.
* Remote calls are not performed; every function that the source code
  awaits is represented by its outcome, supplied as an argument
  (`Except TransportFailure _`), so the control flow around those
  outcomes — the part the claims are about — is embedded exactly.
-/

set_option autoImplicit false

namespace TickTick

/-- JavaScript truthiness of an optional string: `undefined`/`null` and
the empty string are falsy, every other string is truthy. -/
def strTruthy : Option String → Bool
  | none => false
  | some s => s ≠ ""

/-- Milliseconds in one day: the `24 * 60 * 60 * 1000` of the source. -/
def msPerDay : Int := 24 * 60 * 60 * 1000

/-- UTC day number of an instant (ms since the Unix epoch): the calendar
date `YYYY-MM-DD` printed by `toISOString().split('T')[0]`, as a floor
division by the length of a day. -/
def utcDay (ms : Int) : Int := Int.fdiv ms msPerDay

/-- The task record of the remote service (`TickTickTaskSchema` in
`src/types.ts`); fields the core never consumes (reminders, checklist
items, etag, ...) are omitted.  `dueDate` carries the outcome of
`new Date(task.dueDate)` as explained in the file header. -/
structure TickTickTask where
  id : String
  title : String
  projectId : String
  content : Option String := none
  desc : Option String := none
  allDay : Option Bool := none
  startDate : Option String := none
  dueDate : Option (Option Int) := none
  completedTime : Option String := none
  priority : Option Int := none
  status : Option Int := none
  sortOrder : Option Int := none
  tags : Option (List String) := none
  deriving Repr, DecidableEq

/-- The project record (`TickTickProjectSchema` in `src/types.ts`),
restricted to the fields the core reads. -/
structure TickTickProject where
  id : String
  name : String
  color : Option String := none
  sortOrder : Option Int := none
  closed : Option Bool := none
  deriving Repr, DecidableEq

/-- The configuration record (`TickTickConfig` in `src/types.ts`). -/
structure TickTickConfig where
  username : Option String := none
  password : Option String := none
  accessToken : Option String := none
  clientId : Option String := none
  clientSecret : Option String := none
  refreshToken : Option String := none
  deriving Repr, DecidableEq

/-- A task record as returned to the caller.  JavaScript objects are
untyped, so a returned record may or may not carry the `priorityText`
property added by `enhanceTaskForDisplay`; the embedding makes the
presence of that property explicit with an `Option`. -/
structure DisplayTask where
  task : TickTickTask
  priorityText : Option String := none
  deriving Repr, DecidableEq

/-- The `switch (task.priority)` of `enhanceTaskForDisplay`: exact match
on 0/1/3/5, otherwise the default case `task.priority ? Custom : None`
(an absent priority is falsy; a priority of 0 cannot reach the default
case, so in the default case the truthiness test is `p ≠ 0`, which the
earlier `p = 0` branch already settles). -/
def taskPriorityText (priority : Option Int) : String :=
  match priority with
  | none => "None"
  | some p =>
    if p = 0 then "None"
    else if p = 1 then "Low"
    else if p = 3 then "Medium"
    else if p = 5 then "High"
    else "Custom (" ++ toString p ++ ")"

/-- `enhanceTaskForDisplay` (lines 5–33 of `ticktick-client.ts`):
spreads the task, adds `priorityText`, and re-assigns `dueDate` with its
own unchanged value (so every original field is passed through). -/
def enhanceTaskForDisplay (task : TickTickTask) : DisplayTask :=
  { task := task, priorityText := some (taskPriorityText task.priority) }

/-- `isTaskDueToday` (lines 36–72): completed or due-date-less tasks are
never due today; otherwise the due instant is shifted forward by one day
and its UTC calendar date is compared with the reference instant's — the
`allDay` branch and the timed branch of the source compute the same
comparison.  `now` is the instant `new Date()` observed by the call. -/
def isTaskDueToday (task : TickTickTask) (now : Int) : Bool :=
  if strTruthy task.completedTime then false
  else
    match task.dueDate with
    | none => false
    | some none => false
    | some (some dueMs) =>
      let adjustedDueDate := dueMs + msPerDay
      if task.allDay.getD false then
        decide (utcDay adjustedDueDate = utcDay now)
      else
        decide (utcDay adjustedDueDate = utcDay now)

/-- `isTaskOverdue` (lines 75–110): after the same one-day shift, an
all-day task is overdue when its adjusted UTC calendar date is strictly
before the reference date, a timed task when the adjusted instant is
strictly before the reference instant.  `timezoneOffsetHours` (default 8
at the call sites) is accepted but never read by the body, exactly as in
the source. -/
def isTaskOverdue (task : TickTickTask) (timezoneOffsetHours : Int) (now : Int) : Bool :=
  if strTruthy task.completedTime then false
  else
    match task.dueDate with
    | none => false
    | some none => false
    | some (some dueMs) =>
      let adjustedDueDate := dueMs + msPerDay
      if task.allDay.getD false then
        decide (utcDay adjustedDueDate < utcDay now)
      else
        decide (adjustedDueDate < now)

/-- The information an axios failure may carry about the HTTP response:
`status`, `statusText` and (when the response body is truthy) the
`JSON.stringify` of the body. -/
structure ResponseInfo where
  status : Nat
  statusText : String
  data : Option String := none
  deriving Repr, DecidableEq

/-- A transport failure thrown by the HTTP client: the error `message`,
plus the response information when the server answered at all. -/
structure TransportFailure where
  message : String
  response : Option ResponseInfo := none
  deriving Repr, DecidableEq

/-- The `errorData` expression of the detailed catch blocks:
`axiosError.response?.data ? JSON.stringify(data) : axiosError.message`
(`f.response.data` is `some` exactly when the body is truthy). -/
def transportErrorData (f : TransportFailure) (r : ResponseInfo) : String :=
  match r.data with
  | some d => d
  | none => f.message

/-- The error message built by the catch block of `getTasks` and
`getTasksRaw`: with a response, status + statusText + body-or-message;
without one, just the transport message. -/
def getTasksFailureMessage (f : TransportFailure) : String :=
  match f.response with
  | some r =>
      "Failed to get tasks: " ++ toString r.status ++ " " ++ r.statusText
        ++ " - " ++ transportErrorData f r
  | none => "Failed to get tasks: " ++ f.message

/-- The error message built by the catch block of `authenticate`. -/
def authFailureMessage (f : TransportFailure) : String :=
  match f.response with
  | some r =>
      "Authentication failed: " ++ toString r.status ++ " " ++ r.statusText
        ++ " - " ++ transportErrorData f r
  | none => "Authentication failed: " ++ f.message

/-- The mutable state of a `TickTickClient`: its configuration and the
cached `sessionId` (the bearer credential, `null` until resolved). -/
structure ClientState where
  config : TickTickConfig
  sessionId : Option String := none
  deriving Repr, DecidableEq

/-- The `TickTickClient` constructor (lines 117–132): when a truthy
`accessToken` is configured it is adopted as the session id immediately,
otherwise the session id starts out `null`. -/
def mkTickTickClient (config : TickTickConfig) : ClientState :=
  if strTruthy config.accessToken then
    { config := config, sessionId := config.accessToken }
  else
    { config := config, sessionId := none }

/-- `authenticate` (lines 134–155).  `signon` is the outcome of the
`POST /user/signon` call; on success it carries `response.data?.token`
(`none` when the data or token field is missing).  A truthy token is
adopted as the session id.  A missing token raises
`Authentication failed: No token received` inside the `try`, which the
`catch` re-wraps (the thrown `Error` has no `response` property), hence
the doubled prefix in that message. -/
def authenticate (st : ClientState) (signon : Except TransportFailure (Option String)) :
    Except String ClientState :=
  match signon with
  | Except.ok tokenField =>
      if strTruthy tokenField then
        Except.ok { st with sessionId := tokenField }
      else
        Except.error ("Authentication failed: " ++ "Authentication failed: No token received")
  | Except.error f => Except.error (authFailureMessage f)

/-- `ensureAuthenticated` (lines 157–168): a truthy cached session id
short-circuits; otherwise a truthy configured access token is adopted
without any network call; otherwise truthy username and password trigger
the password-grant exchange `authenticate`; otherwise the configuration
error is raised.  The returned `Bool` records whether a network call
(the sign-on request) was performed. -/
def ensureAuthenticated (st : ClientState) (signon : Except TransportFailure (Option String)) :
    Except String (ClientState × Bool) :=
  if strTruthy st.sessionId then Except.ok (st, false)
  else if strTruthy st.config.accessToken then
    Except.ok ({ st with sessionId := st.config.accessToken }, false)
  else if strTruthy st.config.username && strTruthy st.config.password then
    match authenticate st signon with
    | Except.ok st' => Except.ok (st', true)
    | Except.error e => Except.error e
  else
    Except.error "Either accessToken or username/password must be provided"

/-- The remote endpoints consumed by the task-fetch paths, represented
by their outcomes: the `GET /project` enumeration, the per-project
`GET /project/{id}/data` task lists (the inbox's primary route is the
same endpoint family with id `"inbox"`), and the secondary inbox route
`GET /task?projectId=inbox`. -/
structure RemoteEnv where
  projectsResult : Except TransportFailure (List TickTickProject)
  projectData : String → Except TransportFailure (List TickTickTask)
  taskQueryInbox : Except TransportFailure (List TickTickTask)

/-- The `for (const project of projects)` loop of `getTasksRaw` /
`getTasks` (lines 184–194 and 251–259): each project's tasks are
appended on success; on failure the project is skipped and a
`console.warn` line is recorded.  Returns the accumulated tasks and the
warnings. -/
def collectProjectTasks (projectData : String → Except TransportFailure (List TickTickTask)) :
    List TickTickProject → List TickTickTask × List String
  | [] => ([], [])
  | p :: rest =>
    match projectData p.id with
    | Except.ok ts =>
        let r := collectProjectTasks projectData rest
        (ts ++ r.1, r.2)
    | Except.error _ =>
        let r := collectProjectTasks projectData rest
        (r.1, ("Could not access tasks for project " ++ p.id ++ " (" ++ p.name ++ ")") :: r.2)

/-- The inbox step of the aggregate fetch (lines 196–210 and 261–274):
try `GET /project/inbox/data`; on failure try
`GET /task?projectId=inbox`; if both fail contribute nothing and record
the warning. -/
def fetchInboxTasks (env : RemoteEnv) : List TickTickTask × List String :=
  match env.projectData "inbox" with
  | Except.ok ts => (ts, [])
  | Except.error _ =>
    match env.taskQueryInbox with
    | Except.ok ts => (ts, [])
    | Except.error _ => ([], ["Could not access inbox tasks"])

/-- `getTasksRaw` (lines 240–286): with a project id, a single
per-project fetch whose failure is rewrapped with the detailed message;
without one, the project enumeration (whose failure aborts through the
same catch) followed by the per-project loop and the inbox step.
Returns the raw tasks together with the recorded warnings. -/
def getTasksRaw (env : RemoteEnv) (projectId : Option String) :
    Except String (List TickTickTask × List String) :=
  match projectId with
  | some pid =>
      match env.projectData pid with
      | Except.ok ts => Except.ok (ts, [])
      | Except.error f => Except.error (getTasksFailureMessage f)
  | none =>
      match env.projectsResult with
      | Except.error f => Except.error (getTasksFailureMessage f)
      | Except.ok projects =>
          let r := collectProjectTasks env.projectData projects
          let i := fetchInboxTasks env
          Except.ok (r.1 ++ i.1, r.2 ++ i.2)

/-- `getTasks` (lines 170–223): the same fetch logic as `getTasksRaw`,
with every returned task passed through `enhanceTaskForDisplay`. -/
def getTasks (env : RemoteEnv) (projectId : Option String) :
    Except String (List DisplayTask × List String) :=
  match projectId with
  | some pid =>
      match env.projectData pid with
      | Except.ok ts => Except.ok (ts.map enhanceTaskForDisplay, [])
      | Except.error f => Except.error (getTasksFailureMessage f)
  | none =>
      match env.projectsResult with
      | Except.error f => Except.error (getTasksFailureMessage f)
      | Except.ok projects =>
          let r := collectProjectTasks env.projectData projects
          let i := fetchInboxTasks env
          Except.ok ((r.1 ++ i.1).map enhanceTaskForDisplay, r.2 ++ i.2)

/-- `getOverdueTasks` (lines 225–230): raw fetch, filter by
`isTaskOverdue` with the supplied offset, then enhance for display. -/
def getOverdueTasks (env : RemoteEnv) (projectId : Option String)
    (timezoneOffsetHours : Int) (now : Int) :
    Except String (List DisplayTask × List String) :=
  match getTasksRaw env projectId with
  | Except.ok (ts, ws) =>
      Except.ok
        ((ts.filter fun t => isTaskOverdue t timezoneOffsetHours now).map enhanceTaskForDisplay,
          ws)
  | Except.error e => Except.error e

/-- `getTodaysTasks` (lines 232–237): raw fetch, filter by
`isTaskDueToday`, then enhance for display. -/
def getTodaysTasks (env : RemoteEnv) (projectId : Option String) (now : Int) :
    Except String (List DisplayTask × List String) :=
  match getTasksRaw env projectId with
  | Except.ok (ts, ws) =>
      Except.ok ((ts.filter fun t => isTaskDueToday t now).map enhanceTaskForDisplay, ws)
  | Except.error e => Except.error e

/-- `getProjects` (lines 288–297): the project list on success; on
failure only the transport error's `message` is wrapped. -/
def getProjects (result : Except TransportFailure (List TickTickProject)) :
    Except String (List TickTickProject) :=
  match result with
  | Except.ok ps => Except.ok ps
  | Except.error f => Except.error ("Failed to get projects: " ++ f.message)

/-- `createTask` (lines 299–308): returns `response.data` unmodified (no
display enhancement, so no `priorityText` property); on failure only the
transport error's `message` is wrapped. -/
def createTask (result : Except TransportFailure TickTickTask) : Except String DisplayTask :=
  match result with
  | Except.ok data => Except.ok { task := data, priorityText := none }
  | Except.error f => Except.error ("Failed to create task: " ++ f.message)

/-- `updateTask` (lines 310–319): same shape as `createTask`. -/
def updateTask (result : Except TransportFailure TickTickTask) : Except String DisplayTask :=
  match result with
  | Except.ok data => Except.ok { task := data, priorityText := none }
  | Except.error f => Except.error ("Failed to update task: " ++ f.message)

/-- `deleteTask` (lines 321–329): no result on success; on failure only
the transport error's `message` is wrapped. -/
def deleteTask (result : Except TransportFailure Unit) : Except String Unit :=
  match result with
  | Except.ok _ => Except.ok ()
  | Except.error f => Except.error ("Failed to delete task: " ++ f.message)

/-- `completeTask` (lines 331–340): same shape as `createTask`. -/
def completeTask (result : Except TransportFailure TickTickTask) : Except String DisplayTask :=
  match result with
  | Except.ok data => Except.ok { task := data, priorityText := none }
  | Except.error f => Except.error ("Failed to complete task: " ++ f.message)

/-- `getTaskById` (lines 342–351): same shape as `createTask`. -/
def getTaskById (result : Except TransportFailure TickTickTask) : Except String DisplayTask :=
  match result with
  | Except.ok data => Except.ok { task := data, priorityText := none }
  | Except.error f => Except.error ("Failed to get task: " ++ f.message)

/-! ### Concrete sample data

Instants are milliseconds since the Unix epoch:
`2024-01-10T00:00:00Z = 1704844800000` (UTC day 19732),
`2024-01-11T12:00:00Z = 1704974400000` (UTC day 19733),
`2024-01-12T00:00:00Z = 1705017600000` (UTC day 19734). -/

/-- `2024-01-10T00:00:00Z` in ms. -/
def ms20240110 : Int := 1704844800000

/-- `2024-01-11T12:00:00Z` in ms. -/
def ms20240111noon : Int := 1704974400000

/-- `2024-01-12T00:00:00Z` in ms. -/
def ms20240112 : Int := 1705017600000

/-- The spec's worked example: an uncompleted all-day task due
`2024-01-10T00:00:00Z`. -/
def sampleAllDayTask : TickTickTask :=
  { id := "t1", title := "write report", projectId := "A"
    allDay := some true, dueDate := some (some ms20240110) }

/-- An uncompleted timed (non-all-day) task due `2024-01-10T00:00:00Z`. -/
def sampleTimedTask : TickTickTask :=
  { id := "t2", title := "call back", projectId := "A"
    allDay := some false, dueDate := some (some ms20240110) }

/-- A task whose `completedTime` is the empty string: the field is
present (non-null) but falsy in JavaScript, so the classifiers' guard
`if (task.completedTime)` does not fire. -/
def emptyCompletedTask : TickTickTask :=
  { id := "t3", title := "stale", projectId := "A"
    allDay := some false, dueDate := some (some ms20240110)
    completedTime := some "" }

/-- A genuinely completed task (truthy completion timestamp) with an
old due date. -/
def completedTask : TickTickTask :=
  { id := "t4", title := "done", projectId := "A"
    allDay := some false, dueDate := some (some ms20240110)
    completedTime := some "2024-01-12T09:00:00.000+0000" }

/-- A plain task used to exercise the gateway return paths. -/
def sampleTask : TickTickTask :=
  { id := "t5", title := "buy milk", projectId := "B", priority := some 5 }

/-- A second task of project B. -/
def sampleTask2 : TickTickTask :=
  { id := "t6", title := "water plants", projectId := "B", priority := some 7 }

/-- An inbox task. -/
def inboxTask : TickTickTask :=
  { id := "t7", title := "sort mail", projectId := "inbox" }

/-- Project `A`, whose task fetch will fail in the sample environment. -/
def projectA : TickTickProject := { id := "A", name := "Alpha" }

/-- Project `B`, whose task fetch succeeds in the sample environment. -/
def projectB : TickTickProject := { id := "B", name := "Beta" }

/-- A transport failure whose response carries status 500, a status
text, and a response body, while the error message is unrelated. -/
def sampleFailure : TransportFailure :=
  { message := "socket hang up"
    response := some { status := 500, statusText := "Server Error", data := some "quota" } }

/-- A sample remote environment: project `A`'s fetch fails, project
`B`'s fetch yields two tasks, the primary inbox route yields one task. -/
def sampleEnv : RemoteEnv :=
  { projectsResult := Except.ok [projectA, projectB]
    projectData := fun pid =>
      if pid = "A" then Except.error sampleFailure
      else if pid = "B" then Except.ok [sampleTask, sampleTask2]
      else if pid = "inbox" then Except.ok [inboxTask]
      else Except.ok []
    taskQueryInbox := Except.error sampleFailure }

/-- A client configured with a direct access token only. -/
def tokenConfigState : ClientState :=
  mkTickTickClient { accessToken := some "tok-1" }

/-- `needle` occurs as a contiguous substring of `hay`; used to state
that an error message carries a piece of the transport failure. -/
def strContains (needle hay : String) : Prop :=
  needle.data <:+: hay.data

instance (needle hay : String) : Decidable (strContains needle hay) :=
  inferInstanceAs (Decidable (needle.data <:+: hay.data))

/-! ### Claim theorems -/

/-- Strings append by appending their character lists. -/
theorem string_data_append (a b : String) : (a ++ b).data = a.data ++ b.data := rfl

/-- A string contains itself. -/
theorem strContains_self (s : String) : strContains s s :=
  ⟨[], [], by simp⟩

/-- Containment is preserved by appending on the right. -/
theorem strContains_append_left {needle hay : String} (ext : String)
    (h : strContains needle hay) : strContains needle (hay ++ ext) := by
  obtain ⟨s, t, hst⟩ := h
  exact ⟨s, t ++ ext.data, by rw [string_data_append, ← hst]; simp⟩

/-- Containment is preserved by prepending on the left. -/
theorem strContains_append_right {needle hay : String} (pre : String)
    (h : strContains needle hay) : strContains needle (pre ++ hay) := by
  obtain ⟨s, t, hst⟩ := h
  exact ⟨pre.data ++ s, t, by rw [string_data_append, ← hst]; simp⟩

/-- C1: for every uncompleted task with a parseable due date, the
due-today classifier computes `adjustedDue = dueDate + 24h`
unconditionally and returns `true` iff the UTC calendar date of
`adjustedDue` equals that of the reference instant; the result does not
depend on the `allDay` flag. -/
theorem isTaskDueToday_dayShift_iff (task : TickTickTask) (now dueMs : Int)
    (hc : strTruthy task.completedTime = false)
    (hd : task.dueDate = some (some dueMs)) :
    (isTaskDueToday task now = true ↔ utcDay (dueMs + msPerDay) = utcDay now) ∧
    (∀ b : Option Bool, isTaskDueToday { task with allDay := b } now = isTaskDueToday task now) := by
  constructor
  · simp [isTaskDueToday, hc, hd]
  · intro b
    simp [isTaskDueToday, hc, hd]

/-- Witness for C1: the spec's worked example — the all-day task due
`2024-01-10T00:00:00Z` is due today at reference instant
`2024-01-11T12:00:00Z`. -/
theorem isTaskDueToday_dayShift_iff_witness :
    isTaskDueToday sampleAllDayTask ms20240111noon = true :=
  (isTaskDueToday_dayShift_iff sampleAllDayTask ms20240111noon ms20240110
    (by decide) (by decide)).1.mpr (by decide)

/-- C2: for every uncompleted task with a parseable due date, the
overdue classifier with `adjustedDue = dueDate + 24h` returns `true` iff
for an all-day task the UTC calendar date of `adjustedDue` is strictly
before that of the reference instant, and for a timed task the instant
`adjustedDue` is strictly before the reference instant. -/
theorem isTaskOverdue_dayShift_iff (task : TickTickTask) (tz now dueMs : Int)
    (hc : strTruthy task.completedTime = false)
    (hd : task.dueDate = some (some dueMs)) :
    isTaskOverdue task tz now = true ↔
      (if task.allDay.getD false then utcDay (dueMs + msPerDay) < utcDay now
       else dueMs + msPerDay < now) := by
  cases h : task.allDay.getD false <;> simp [isTaskOverdue, hc, hd, h]

/-- Witness for C2: the spec's worked example — the all-day task due
`2024-01-10T00:00:00Z` is overdue at reference instant
`2024-01-12T00:00:00Z` (adjusted date `2024-01-11 < 2024-01-12`). -/
theorem isTaskOverdue_dayShift_iff_witness :
    isTaskOverdue sampleAllDayTask 8 ms20240112 = true :=
  (isTaskOverdue_dayShift_iff sampleAllDayTask 8 ms20240112 ms20240110
    (by decide) (by decide)).mpr (by decide)

/-- C3 counterexample: a task whose `completedTime` is present
(non-null) but equal to the empty string is classified overdue — the
JavaScript guard `if (task.completedTime)` tests truthiness, and the
empty string is falsy, so the claim "a non-null `completedTime` forces
both classifiers to `false`" fails on this input. -/
theorem classifier_completed_counterexample :
    emptyCompletedTask.completedTime = some "" ∧
    isTaskOverdue emptyCompletedTask 8 ms20240112 = true :=
  ⟨rfl, by decide⟩

/-- C3 amended: for every task whose `completedTime` is a truthy
(non-empty) string, and for every task with no due date, both
classifiers return `false` for any reference instant and any offset. -/
theorem classifiers_false_of_completed_or_no_dueDate (task : TickTickTask) (tz now : Int)
    (h : strTruthy task.completedTime = true ∨ task.dueDate = none) :
    isTaskDueToday task now = false ∧ isTaskOverdue task tz now = false := by
  rcases h with h | h
  · simp [isTaskDueToday, isTaskOverdue, h]
  · cases hc : strTruthy task.completedTime <;>
      simp [isTaskDueToday, isTaskOverdue, h, hc]

/-- Witness for amended C3: a genuinely completed task with a past due
date is neither due today nor overdue. -/
theorem classifiers_false_of_completed_or_no_dueDate_witness :
    isTaskDueToday completedTask ms20240112 = false ∧
    isTaskOverdue completedTask 8 ms20240112 = false :=
  classifiers_false_of_completed_or_no_dueDate completedTask 8 ms20240112 (Or.inl (by decide))

/-- C4: the `timezoneOffsetHours` parameter has no effect on the
overdue classifier, nor on `getOverdueTasks` which accepts it in the
public contract: both are invariant under changing the offset. -/
theorem isTaskOverdue_offset_irrelevant (task : TickTickTask) (o1 o2 now : Int)
    (env : RemoteEnv) (projectId : Option String) :
    isTaskOverdue task o1 now = isTaskOverdue task o2 now ∧
    getOverdueTasks env projectId o1 now = getOverdueTasks env projectId o2 now :=
  ⟨rfl, rfl⟩

/-- C10: the classifiers are not mutually exclusive — the uncompleted
timed task due `2024-01-10T00:00:00Z` is, at reference instant
`2024-01-11T12:00:00Z`, both due today (adjusted date `2024-01-11`
equals the reference date) and overdue (adjusted instant
`2024-01-11T00:00Z` is before the reference instant). -/
theorem dueToday_and_overdue_both_true :
    sampleTimedTask.completedTime = none ∧ sampleTimedTask.allDay = some false ∧
    isTaskDueToday sampleTimedTask ms20240111noon = true ∧
    isTaskOverdue sampleTimedTask 8 ms20240111noon = true :=
  ⟨rfl, rfl, by decide, by decide⟩

/-- C5: when the project enumeration succeeds, the aggregate fetch never
aborts on a per-project failure: the result is the concatenation, in
project-enumeration order, of the task lists of exactly the succeeding
projects (a failing project contributes nothing but a warning), followed
by the inbox contribution last; no de-duplication is performed, so a
project with id `inbox` would contribute the same tasks twice. -/
theorem getTasksRaw_aggregate (env : RemoteEnv) (projects : List TickTickProject)
    (h : env.projectsResult = Except.ok projects) :
    getTasksRaw env none = Except.ok
      ((projects.map fun p =>
          match env.projectData p.id with
          | Except.ok ts => ts
          | Except.error _ => ([] : List TickTickTask)).flatten
        ++ (fetchInboxTasks env).1,
       (projects.filterMap fun p =>
          match env.projectData p.id with
          | Except.ok _ => none
          | Except.error _ =>
              some ("Could not access tasks for project " ++ p.id ++ " (" ++ p.name ++ ")"))
        ++ (fetchInboxTasks env).2) := by
  have key : ∀ ps : List TickTickProject,
      collectProjectTasks env.projectData ps =
        ((ps.map fun p =>
            match env.projectData p.id with
            | Except.ok ts => ts
            | Except.error _ => ([] : List TickTickTask)).flatten,
         ps.filterMap fun p =>
            match env.projectData p.id with
            | Except.ok _ => none
            | Except.error _ =>
                some ("Could not access tasks for project " ++ p.id ++ " (" ++ p.name ++ ")")) := by
    intro ps
    induction ps with
    | nil => rfl
    | cons p rest ih =>
      cases hp : env.projectData p.id <;>
        simp [collectProjectTasks, hp, ih, List.filterMap_cons]
  simp [getTasksRaw, h, key]

/-- Witness for C5: in the sample environment project `A` fails, `B`
yields two tasks, the inbox yields one — the aggregate fetch returns
B's tasks then the inbox task, plus the warning for `A`. -/
theorem getTasksRaw_aggregate_witness :
    getTasksRaw sampleEnv none = Except.ok ([sampleTask, sampleTask2, inboxTask],
      ["Could not access tasks for project A (Alpha)"]) := by
  rw [getTasksRaw_aggregate sampleEnv [projectA, projectB] rfl]
  rfl

/-- A successful `ensureAuthenticated` always leaves a truthy session
id in the resulting state. -/
theorem ensureAuthenticated_ok_session (st : ClientState)
    (signon : Except TransportFailure (Option String)) (st' : ClientState) (madeCall : Bool)
    (h : ensureAuthenticated st signon = Except.ok (st', madeCall)) :
    strTruthy st'.sessionId = true := by
  unfold ensureAuthenticated at h
  by_cases h1 : strTruthy st.sessionId = true
  · simp only [h1, if_true] at h
    obtain ⟨rfl, -⟩ := by simpa using h
    exact h1
  · simp only [h1, if_false, Bool.not_eq_true] at *
    by_cases h2 : strTruthy st.config.accessToken = true
    · simp only [h2, if_true] at h
      obtain ⟨rfl, -⟩ := by simpa using h
      simpa using h2
    · simp only [h2, Bool.not_eq_true] at *
      by_cases h3 : (strTruthy st.config.username && strTruthy st.config.password) = true
      · simp only [h1, h2, h3, if_true, if_false, Bool.false_eq_true] at h
        unfold authenticate at h
        cases signon with
        | ok tokenField =>
          by_cases ht : strTruthy tokenField = true
          · simp only [ht, if_true] at h
            obtain ⟨rfl, -⟩ := by simpa using h
            simpa using ht
          · simp [ht] at h
        | error f => simp at h
      · simp [h1, h2, h3] at h

/-- C6: `ensureAuthenticated` resolves the credential in the documented
order — a cached (truthy) session id short-circuits with no network
call; otherwise a configured access token is adopted with no network
call; otherwise configured username and password trigger the
password-grant exchange whose token is adopted; otherwise the
configuration error is raised.  Moreover once any call succeeds, every
later call returns the same state unchanged with no network call. -/
theorem ensureAuthenticated_resolution (st : ClientState)
    (signon signon2 : Except TransportFailure (Option String)) :
    (strTruthy st.sessionId = true → ensureAuthenticated st signon = Except.ok (st, false)) ∧
    (strTruthy st.sessionId = false → strTruthy st.config.accessToken = true →
      ensureAuthenticated st signon =
        Except.ok ({ st with sessionId := st.config.accessToken }, false)) ∧
    (strTruthy st.sessionId = false → strTruthy st.config.accessToken = false →
      (strTruthy st.config.username && strTruthy st.config.password) = true →
      ∀ tokenField : Option String, signon = Except.ok tokenField →
        strTruthy tokenField = true →
        ensureAuthenticated st signon = Except.ok ({ st with sessionId := tokenField }, true)) ∧
    (strTruthy st.sessionId = false → strTruthy st.config.accessToken = false →
      (strTruthy st.config.username && strTruthy st.config.password) = false →
      ensureAuthenticated st signon =
        Except.error "Either accessToken or username/password must be provided") ∧
    (∀ (st' : ClientState) (madeCall : Bool),
      ensureAuthenticated st signon = Except.ok (st', madeCall) →
      ensureAuthenticated st' signon2 = Except.ok (st', false)) := by
  refine ⟨?_, ?_, ?_, ?_, ?_⟩
  · intro h1
    simp [ensureAuthenticated, h1]
  · intro h1 h2
    simp [ensureAuthenticated, h1, h2]
  · intro h1 h2 h3 tokenField hsig ht
    simp [ensureAuthenticated, h1, h2, h3, authenticate, hsig, ht]
  · intro h1 h2 h3
    simp [ensureAuthenticated, h1, h2, h3]
  · intro st' madeCall h
    have hs := ensureAuthenticated_ok_session st signon st' madeCall h
    simp [ensureAuthenticated, hs]

/-- Witness for C6: a client constructed with a direct access token has
a cached credential, and `ensureAuthenticated` returns it unchanged with
no network call. -/
theorem ensureAuthenticated_resolution_witness :
    ensureAuthenticated tokenConfigState (Except.ok none) =
      Except.ok (tokenConfigState, false) :=
  (ensureAuthenticated_resolution tokenConfigState (Except.ok none) (Except.ok none)).1
    (by decide)

/-- C7 counterexample: the failure `sampleFailure` carries status 500,
status text `Server Error` and body `quota`, yet `getProjects` raises
`Failed to get projects: socket hang up`, which contains neither the
status code, nor the status text, nor the body — so the gateway
operations other than the task fetch do swallow the response detail. -/
theorem remoteError_detail_counterexample :
    sampleFailure.response =
      some { status := 500, statusText := "Server Error", data := some "quota" } ∧
    getProjects (Except.error sampleFailure) =
      Except.error "Failed to get projects: socket hang up" ∧
    ¬ strContains "500" "Failed to get projects: socket hang up" ∧
    ¬ strContains "Server Error" "Failed to get projects: socket hang up" ∧
    ¬ strContains "quota" "Failed to get projects: socket hang up" := by
  refine ⟨rfl, rfl, ?_, ?_, ?_⟩ <;> decide

/-- C7 amended: only the task-fetch error message carries the status
code, the status text, and the response body or message of the
transport failure; `getProjects`, `createTask`, `updateTask`,
`deleteTask`, `completeTask` and `getTaskById` wrap exactly the
transport error's `message` behind the operation name. -/
theorem remoteError_detail (f : TransportFailure) (r : ResponseInfo)
    (hr : f.response = some r) :
    (strContains (toString r.status) (getTasksFailureMessage f) ∧
     strContains r.statusText (getTasksFailureMessage f) ∧
     strContains (transportErrorData f r) (getTasksFailureMessage f)) ∧
    getProjects (Except.error f) = Except.error ("Failed to get projects: " ++ f.message) ∧
    createTask (Except.error f) = Except.error ("Failed to create task: " ++ f.message) ∧
    updateTask (Except.error f) = Except.error ("Failed to update task: " ++ f.message) ∧
    deleteTask (Except.error f) = Except.error ("Failed to delete task: " ++ f.message) ∧
    completeTask (Except.error f) = Except.error ("Failed to complete task: " ++ f.message) ∧
    getTaskById (Except.error f) = Except.error ("Failed to get task: " ++ f.message) := by
  have hmsg : getTasksFailureMessage f =
      "Failed to get tasks: " ++ toString r.status ++ " " ++ r.statusText ++ " - "
        ++ transportErrorData f r := by
    unfold getTasksFailureMessage
    rw [hr]
  refine ⟨⟨?_, ?_, ?_⟩, rfl, rfl, rfl, rfl, rfl, rfl⟩
  · rw [hmsg]
    exact strContains_append_left _ (strContains_append_left _ (strContains_append_left _
      (strContains_append_left _ (strContains_append_right _ (strContains_self _)))))
  · rw [hmsg]
    exact strContains_append_left _ (strContains_append_left _
      (strContains_append_right _ (strContains_self _)))
  · rw [hmsg]
    exact strContains_append_right _ (strContains_self _)

/-- Witness for amended C7: on the concrete failure, the task-fetch
message carries `500` and `Server Error`, while `createTask` raises only
the wrapped transport message. -/
theorem remoteError_detail_witness :
    strContains "500" (getTasksFailureMessage sampleFailure) ∧
    strContains "Server Error" (getTasksFailureMessage sampleFailure) ∧
    createTask (Except.error sampleFailure) =
      Except.error "Failed to create task: socket hang up" := by
  have h := remoteError_detail sampleFailure
    { status := 500, statusText := "Server Error", data := some "quota" } rfl
  refine ⟨h.1.1, h.1.2.1, ?_⟩
  rw [h.2.2.1]
  rfl

/-- Every list mapped through the display normalizer carries a
`priorityText` on each element. -/
theorem all_priorityText_map (l : List TickTickTask) :
    ((l.map enhanceTaskForDisplay).all fun t => t.priorityText.isSome) = true := by
  induction l with
  | nil => rfl
  | cons t rest ih => simp [enhanceTaskForDisplay, ih]

/-- A successful `getTasks` result is a display-normalized list. -/
theorem getTasks_ok_enhanced (env : RemoteEnv) (projectId : Option String)
    (ts : List DisplayTask) (w : List String)
    (h : getTasks env projectId = Except.ok (ts, w)) :
    ∃ raw : List TickTickTask, ts = raw.map enhanceTaskForDisplay := by
  cases projectId with
  | some p =>
    cases hp : env.projectData p with
    | ok l =>
      simp only [getTasks, hp, Except.ok.injEq, Prod.mk.injEq] at h
      exact ⟨l, h.1.symm⟩
    | error f =>
      simp [getTasks, hp] at h
  | none =>
    cases hps : env.projectsResult with
    | error f =>
      simp [getTasks, hps] at h
    | ok projects =>
      simp only [getTasks, hps, Except.ok.injEq, Prod.mk.injEq] at h
      exact ⟨_, h.1.symm⟩

/-- A successful `getOverdueTasks` result is a display-normalized
list. -/
theorem getOverdueTasks_ok_enhanced (env : RemoteEnv) (projectId : Option String)
    (tz now : Int) (ts : List DisplayTask) (w : List String)
    (h : getOverdueTasks env projectId tz now = Except.ok (ts, w)) :
    ∃ raw : List TickTickTask, ts = raw.map enhanceTaskForDisplay := by
  cases hr : getTasksRaw env projectId with
  | ok p =>
    obtain ⟨l, ws⟩ := p
    simp only [getOverdueTasks, hr, Except.ok.injEq, Prod.mk.injEq] at h
    exact ⟨_, h.1.symm⟩
  | error e =>
    simp [getOverdueTasks, hr] at h

/-- A successful `getTodaysTasks` result is a display-normalized
list. -/
theorem getTodaysTasks_ok_enhanced (env : RemoteEnv) (projectId : Option String)
    (now : Int) (ts : List DisplayTask) (w : List String)
    (h : getTodaysTasks env projectId now = Except.ok (ts, w)) :
    ∃ raw : List TickTickTask, ts = raw.map enhanceTaskForDisplay := by
  cases hr : getTasksRaw env projectId with
  | ok p =>
    obtain ⟨l, ws⟩ := p
    simp only [getTodaysTasks, hr, Except.ok.injEq, Prod.mk.injEq] at h
    exact ⟨_, h.1.symm⟩
  | error e =>
    simp [getTodaysTasks, hr] at h

/-- C8 counterexample: `createTask` returns the raw remote record — on
the concrete created task the returned record carries no `priorityText`
property, although the display normalizer would have labelled its
priority `High`; so not every returned task record passes through the
normalizer. -/
theorem display_normalizer_counterexample :
    createTask (Except.ok sampleTask) =
      Except.ok { task := sampleTask, priorityText := none } ∧
    (enhanceTaskForDisplay sampleTask).priorityText = some "High" :=
  ⟨rfl, rfl⟩

/-- C8 amended: `getTasks`, `getOverdueTasks` and `getTodaysTasks` pass
every returned record through the display normalizer, so each carries
`priorityText`; `createTask`, `updateTask`, `completeTask` and
`getTaskById` return the raw remote record without `priorityText`. -/
theorem display_normalizer_coverage (env : RemoteEnv) (projectId : Option String)
    (tz now : Int) (data : TickTickTask)
    (ts1 ts2 ts3 : List DisplayTask) (w1 w2 w3 : List String)
    (h1 : getTasks env projectId = Except.ok (ts1, w1))
    (h2 : getOverdueTasks env projectId tz now = Except.ok (ts2, w2))
    (h3 : getTodaysTasks env projectId now = Except.ok (ts3, w3)) :
    (ts1.all fun t => t.priorityText.isSome) = true ∧
    (ts2.all fun t => t.priorityText.isSome) = true ∧
    (ts3.all fun t => t.priorityText.isSome) = true ∧
    createTask (Except.ok data) = Except.ok { task := data, priorityText := none } ∧
    updateTask (Except.ok data) = Except.ok { task := data, priorityText := none } ∧
    completeTask (Except.ok data) = Except.ok { task := data, priorityText := none } ∧
    getTaskById (Except.ok data) = Except.ok { task := data, priorityText := none } := by
  obtain ⟨r1, rfl⟩ := getTasks_ok_enhanced env projectId ts1 w1 h1
  obtain ⟨r2, rfl⟩ := getOverdueTasks_ok_enhanced env projectId tz now ts2 w2 h2
  obtain ⟨r3, rfl⟩ := getTodaysTasks_ok_enhanced env projectId now ts3 w3 h3
  exact ⟨all_priorityText_map r1, all_priorityText_map r2, all_priorityText_map r3,
    rfl, rfl, rfl, rfl⟩

/-- Witness for amended C8: in the sample environment all `getTasks`
results carry `priorityText`, while `createTask` returns the raw
record. -/
theorem display_normalizer_coverage_witness :
    (([sampleTask, sampleTask2, inboxTask].map enhanceTaskForDisplay).all
      fun t => t.priorityText.isSome) = true ∧
    createTask (Except.ok sampleTask) =
      Except.ok { task := sampleTask, priorityText := none } := by
  have h := display_normalizer_coverage sampleEnv none 8 ms20240112 sampleTask
    ([sampleTask, sampleTask2, inboxTask].map enhanceTaskForDisplay) [] []
    ["Could not access tasks for project A (Alpha)"]
    ["Could not access tasks for project A (Alpha)"]
    ["Could not access tasks for project A (Alpha)"]
    rfl rfl rfl
  exact ⟨h.1, h.2.2.2.1⟩

/-- C9: the display normalizer is total and alters nothing but the
added label: it returns a copy of the task (every field, in particular
`dueDate`, passed through unchanged) with `priorityText` mapping 0 to
`None`, 1 to `Low`, 3 to `Medium`, 5 to `High`, an absent priority to
`None`, and any other non-zero integer `p` to `Custom (p)`. -/
theorem enhanceTaskForDisplay_total (task : TickTickTask) (p : Int)
    (hp0 : p ≠ 0) (hp1 : p ≠ 1) (hp3 : p ≠ 3) (hp5 : p ≠ 5) :
    (enhanceTaskForDisplay task).task = task ∧
    (enhanceTaskForDisplay task).task.dueDate = task.dueDate ∧
    (enhanceTaskForDisplay { task with priority := some 0 }).priorityText = some "None" ∧
    (enhanceTaskForDisplay { task with priority := some 1 }).priorityText = some "Low" ∧
    (enhanceTaskForDisplay { task with priority := some 3 }).priorityText = some "Medium" ∧
    (enhanceTaskForDisplay { task with priority := some 5 }).priorityText = some "High" ∧
    (enhanceTaskForDisplay { task with priority := none }).priorityText = some "None" ∧
    (enhanceTaskForDisplay { task with priority := some p }).priorityText =
      some ("Custom (" ++ toString p ++ ")") := by
  refine ⟨rfl, rfl, rfl, rfl, rfl, rfl, rfl, ?_⟩
  simp [enhanceTaskForDisplay, taskPriorityText, hp0, hp1, hp3, hp5]

/-- Witness for C9: the spec's test vector at priority 7 — a custom
label — and passthrough of the task record. -/
theorem enhanceTaskForDisplay_total_witness :
    (enhanceTaskForDisplay sampleTask).task = sampleTask ∧
    (enhanceTaskForDisplay { sampleTask with priority := some 7 }).priorityText =
      some "Custom (7)" := by
  have h := enhanceTaskForDisplay_total sampleTask 7
    (by decide) (by decide) (by decide) (by decide)
  exact ⟨h.1, (h.2.2.2.2.2.2.2).trans (by decide)⟩

end TickTick
